import Mathlib

/-!
Verification of the C example components of the golem repository.

The development shallowly embeds the five C/C++ source files:

* `cli/golem-examples/examples/c/c-default/main.c` and
  `cli/golem-examples/examples/c/c-app-component/.../component.cpp`:
  a process-wide `uint64_t total` counter with exports `add` and `get`.
* `cli/golem-examples/examples/c/c-example-http/main.c`: the same counter
  plus the `send` export performing a WASI outgoing-HTTP request.
* `test-components/c-1/main.c`: `run` and `print` exports.
* `test-components/large-dynamic-memory/main.c`: a `run` export that
  allocates and touches 512 pages of 1MB each.

Machine integers are modelled as `Nat` with explicit reduction `% 2 ^ 64`
where the C type is `uint64_t`.  Host calls made by `send` are modelled by
an environment record giving each call's outcome, and the handle/step
behaviour of `send` is recorded as an explicit event trace.
-/

/-- `UINT64_MOD = 2 ^ 64`, the modulus of C `uint64_t` arithmetic. -/
def UINT64_MOD : Nat := 2 ^ 64

/-- `void exports_pack_name_api_add(uint64_t value) { total += value; }`
(c-default/main.c lines 15-17).  The first argument is the current value of
the static `uint64_t total`, the second the `value` parameter; the result is
the value of `total` after the call.  C unsigned addition wraps mod `2^64`. -/
def exports_pack_name_api_add (total value : Nat) : Nat :=
  (total + value) % UINT64_MOD

/-- `uint64_t exports_pack_name_api_get() { return total; }`
(c-default/main.c lines 19-21): returns the current value of `total`
without modifying it. -/
def exports_pack_name_api_get (total : Nat) : Nat :=
  total

/-- The value of `total` after a sequence of `add` calls starting from the
given value of `total`.  A freshly loaded instance has `total = 0`
(`static uint64_t total = 0;`, c-default/main.c line 11). -/
def runAdds (total : Nat) (vs : List Nat) : Nat :=
  vs.foldl exports_pack_name_api_add total

/-- The argument of `exports_c_api1_print`: a component-model string
`c_api1_string_t`, a pointer plus a length.  `mem i` is the byte of linear
memory at offset `i` from `ptr` (defined for every offset, so that reads
past `len` are representable), `len` the string length. -/
structure c_api1_string_t where
  mem : Nat → Nat
  len : Nat

/-- Offsets relative to `src` of the bytes read by `strncpy(dst, src, n)`,
beginning at offset `start` with `n` bytes still to copy: `strncpy` copies
byte after byte and stops once `n` bytes have been copied or a NUL byte has
been copied (the NUL itself is read). -/
def strncpyReads (mem : Nat → Nat) : Nat → Nat → List Nat
  | _, 0 => []
  | start, n + 1 =>
      start :: (if mem start = 0 then [] else strncpyReads mem (start + 1) n)

/-- `void exports_c_api1_print(c_api1_string_t *s)` (c-1/main.c lines
17-26): allocates `s->len + 1` bytes, zeroes them with `memset`, copies with
`strncpy(buf, s->ptr, s->len)` and prints the buffer together with the
current year.  Every read of the argument string happens inside the
`strncpy`; the model returns the list of offsets read from `s->ptr`. -/
def exports_c_api1_print (s : c_api1_string_t) : List Nat :=
  strncpyReads s.mem 0 s.len

/-- `l.all (· < n)` as a `Bool`: every element of `l` is below `n`. -/
def allBelow (l : List Nat) (n : Nat) : Bool :=
  l.all (fun o => decide (o < n))

/-- `#define PAGE_SIZE 1024*1024` (large-dynamic-memory/main.c line 13). -/
def PAGE_SIZE : Nat := 1024 * 1024

/-- `#define COUNT 512` (large-dynamic-memory/main.c line 14). -/
def COUNT : Nat := 512

/-- Allocator environment for the large-dynamic-memory fixture: `alloc i`
tells whether the `malloc(PAGE_SIZE)` of iteration `i` succeeds.  The C
code does not check the result of `malloc`. -/
structure AllocEnv where
  alloc : Nat → Bool

/-- A byte read performed by the run loop: the page (iteration) index and
the offset of the byte within that iteration's 1MB block. -/
structure MemRead where
  page : Nat
  off : Nat
deriving DecidableEq

/-- The loop of `exports_c_api1_run` (large-dynamic-memory/main.c lines
17-23) starting at iteration `i` with `n` iterations to go.  Each iteration
mallocs a `PAGE_SIZE` block and reads `DATA[0]` and `DATA[PAGE_SIZE-1]`.
When the malloc fails the unchecked `DATA[0]` dereferences a null pointer:
the run crashes, modelled as `none`. -/
def runLoop (env : AllocEnv) : Nat → Nat → Option (List MemRead)
  | _, 0 => some []
  | i, n + 1 =>
      if env.alloc i then
        (runLoop env (i + 1) n).map
          (fun rest => ⟨i, 0⟩ :: ⟨i, PAGE_SIZE - 1⟩ :: rest)
      else
        none

/-- `uint64_t exports_c_api1_run(void)` of large-dynamic-memory/main.c
(lines 16-26): runs `COUNT` iterations of the allocation loop and returns
0.  `none` models a crash (null-pointer dereference after a failed
malloc); otherwise the result is the returned value 0 paired with the
sequence of byte reads the loop performed. -/
def exports_c_api1_run (env : AllocEnv) : Option (Nat × List MemRead) :=
  (runLoop env 0 COUNT).map (fun l => (0, l))

/-- The reads of `n` successful iterations starting at page `i`: first and
last byte of each page, in iteration order. -/
def pageReadsFrom : Nat → Nat → List MemRead
  | _, 0 => []
  | i, n + 1 => ⟨i, 0⟩ :: ⟨i, PAGE_SIZE - 1⟩ :: pageReadsFrom (i + 1) n

/-- Every malloc of the run succeeds in this environment. -/
def allocAllOk (env : AllocEnv) : Bool :=
  (List.range COUNT).all env.alloc

/-- Every read is within the bounds of its 1MB block. -/
def readsInBounds (l : List MemRead) : Bool :=
  l.all (fun r => decide (r.off < PAGE_SIZE))

/-- The two stream-error tags of `wasi:io/streams.{stream-error}` in the
generated binding: `WASI_IO_STREAMS_STREAM_ERROR_LAST_OPERATION_FAILED`
and `WASI_IO_STREAMS_STREAM_ERROR_CLOSED`. -/
inductive StreamErrorTag
  | lastOperationFailed
  | closed
deriving DecidableEq

/-- The own handles manipulated by `exports_pack_name_api_send`
(c-example-http/main.c lines 39-295). -/
inductive Handle
  | headers
  | request
  | outBody
  | outBodyStream
  | requestOptions
  | futureResponse
  | pollable
  | response
  | incomingBody
  | incomingBodyStream
deriving DecidableEq

/-- The phases of the outgoing-request workflow, one per host call (the
three timeout setters separately), in source order. -/
inductive Step
  | createHeaders
  | constructRequest
  | setMethod
  | setPath
  | setScheme
  | setAuthority
  | getOutgoingBody
  | openBodyStream
  | writeBody
  | finishBody
  | setConnectTimeout
  | setFirstByteTimeout
  | setBetweenBytesTimeout
  | dispatch
  | awaitResponse
  | readStatus
  | readBody
deriving DecidableEq

/-- Trace events of `send`: `acquire h` records that a host call returned
the own handle `h`, `drop h` an explicit `..._drop_own` call, `consume h`
that `h` was passed by value to a host call that takes ownership
(`constructor_outgoing_request` consumes the headers,
`outgoing_handler_handle` the request and the request options,
`static_outgoing_body_finish` the outgoing body), and `step s` that the
workflow attempted phase `s`. -/
inductive Event
  | acquire (h : Handle)
  | drop (h : Handle)
  | consume (h : Handle)
  | step (s : Step)
deriving DecidableEq

/-- Outcome of `future_incoming_response_get` once it yields a result
(c-example-http/main.c lines 207-222): `ok` is a response
(`!res.is_err && !res.val.ok.is_err`), `errCode` an inner error code
(`!res.is_err && res.val.ok.is_err`), `err` the outer error
(`res.is_err`). -/
inductive PollOutcome
  | ok
  | errCode
  | err
deriving DecidableEq

/-- Host environment for one call of `exports_pack_name_api_send`: the
outcome of each host call, in source order.  `pollNotReady` is the number
of poll-loop iterations in which `future_incoming_response_get` returns
false before it yields `pollOutcome`.  `chunks` are the chunks returned by
the successful `blocking_read` calls of the body loop (each at most 1024
bytes, the requested read size), and `endTag` the stream error that ends
the loop.  Heap allocations (`malloc`/`realloc` of scratch buffers) are
modelled as always succeeding. -/
structure SendEnv where
  fromListOk : Bool
  setMethodOk : Bool
  setPathOk : Bool
  setSchemeOk : Bool
  setAuthorityOk : Bool
  requestBodyOk : Bool
  bodyWriteOk : Bool
  blockingWriteOk : Bool
  finishOk : Bool
  setConnectTimeoutOk : Bool
  setFirstByteTimeoutOk : Bool
  setBetweenBytesTimeoutOk : Bool
  handleOk : Bool
  pollNotReady : Nat
  pollOutcome : PollOutcome
  status : Nat
  chunks : List (List Nat)
  endTag : StreamErrorTag
  consumeOk : Bool
  bodyStreamOk : Bool

/-- The value `send` stores in its `ret` output parameter: the response
body bytes on success, an error message otherwise. -/
inductive SendResult
  | success (body : List Nat)
  | failure (msg : String)
deriving DecidableEq

/-- Events of the not-ready poll iterations (c-example-http/main.c lines
223-237): each iteration subscribes a pollable, polls it, and drops it. -/
def pollLoopEvents : Nat → List Event
  | 0 => []
  | n + 1 => .acquire .pollable :: .drop .pollable :: pollLoopEvents n

/-- The response-body read loop (c-example-http/main.c lines 263-285):
while `blocking_read` succeeds the chunk is appended to the accumulated
body (`realloc` + `memcpy`); when it fails with tag `closed` the loop ends
and the body accumulated so far is the result; any other tag aborts with
an error message. -/
def readBodyLoop (acc : List Nat) :
    List (List Nat) → StreamErrorTag → SendResult
  | [], .closed => .success acc
  | [], .lastOperationFailed => .failure "Failed to read from body stream"
  | c :: rest, tag => readBodyLoop (acc ++ c) rest tag

/-- Events of the all-success path of `send` from entry through the
dispatch of the request and entry of the await loop. -/
def preAwaitEvents : List Event :=
  [.step .createHeaders, .acquire .headers,
   .step .constructRequest, .consume .headers, .acquire .request,
   .step .setMethod, .step .setPath, .step .setScheme, .step .setAuthority,
   .step .getOutgoingBody, .acquire .outBody,
   .step .openBodyStream, .acquire .outBodyStream,
   .step .writeBody,
   .drop .outBodyStream,
   .step .finishBody, .consume .outBody,
   .acquire .requestOptions,
   .step .setConnectTimeout, .step .setFirstByteTimeout,
   .step .setBetweenBytesTimeout,
   .step .dispatch, .consume .request, .consume .requestOptions,
   .acquire .futureResponse,
   .step .awaitResponse]

/-- `void exports_pack_name_api_send(component_name_string_t *ret)`
(c-example-http/main.c lines 39-295), as a function of the current value
of the counter `total` (read only to format the request body
`{ "count": %llu }`) and of the host environment.  The result is the value
written to `ret` together with the trace of handle and step events, one
branch per exit path of the C function, with the events of each path
listed in source order. -/
def exports_pack_name_api_send (total : Nat) (env : SendEnv) :
    SendResult × List Event :=
  if env.fromListOk = false then
    (.failure "Failed to create header list",
     [.step .createHeaders])
  else if env.setMethodOk = false then
    (.failure "Failed to set method",
     [.step .createHeaders, .acquire .headers,
      .step .constructRequest, .consume .headers, .acquire .request,
      .step .setMethod, .drop .request])
  else if env.setPathOk = false then
    (.failure "Failed to set path",
     [.step .createHeaders, .acquire .headers,
      .step .constructRequest, .consume .headers, .acquire .request,
      .step .setMethod, .step .setPath, .drop .request])
  else if env.setSchemeOk = false then
    (.failure "Failed to set scheme",
     [.step .createHeaders, .acquire .headers,
      .step .constructRequest, .consume .headers, .acquire .request,
      .step .setMethod, .step .setPath, .step .setScheme, .drop .request])
  else if env.setAuthorityOk = false then
    (.failure "Failed to set authority",
     [.step .createHeaders, .acquire .headers,
      .step .constructRequest, .consume .headers, .acquire .request,
      .step .setMethod, .step .setPath, .step .setScheme, .step .setAuthority,
      .drop .request])
  else if env.requestBodyOk = false then
    (.failure "Failed to get outgoing body",
     [.step .createHeaders, .acquire .headers,
      .step .constructRequest, .consume .headers, .acquire .request,
      .step .setMethod, .step .setPath, .step .setScheme, .step .setAuthority,
      .step .getOutgoingBody, .drop .request])
  else if env.bodyWriteOk = false then
    (.failure "Failed to get outgoing body stream",
     [.step .createHeaders, .acquire .headers,
      .step .constructRequest, .consume .headers, .acquire .request,
      .step .setMethod, .step .setPath, .step .setScheme, .step .setAuthority,
      .step .getOutgoingBody, .acquire .outBody,
      .step .openBodyStream, .drop .outBody, .drop .request])
  else if env.blockingWriteOk = false then
    (.failure "Failed to write body",
     [.step .createHeaders, .acquire .headers,
      .step .constructRequest, .consume .headers, .acquire .request,
      .step .setMethod, .step .setPath, .step .setScheme, .step .setAuthority,
      .step .getOutgoingBody, .acquire .outBody,
      .step .openBodyStream, .acquire .outBodyStream,
      .step .writeBody,
      .drop .outBodyStream, .drop .outBody, .drop .request])
  else if env.finishOk = false then
    (.failure "Failed to finish body",
     [.step .createHeaders, .acquire .headers,
      .step .constructRequest, .consume .headers, .acquire .request,
      .step .setMethod, .step .setPath, .step .setScheme, .step .setAuthority,
      .step .getOutgoingBody, .acquire .outBody,
      .step .openBodyStream, .acquire .outBodyStream,
      .step .writeBody,
      .drop .outBodyStream,
      .step .finishBody, .consume .outBody, .drop .request])
  else if env.setConnectTimeoutOk = false then
    (.failure "Failed to set connect timeout",
     [.step .createHeaders, .acquire .headers,
      .step .constructRequest, .consume .headers, .acquire .request,
      .step .setMethod, .step .setPath, .step .setScheme, .step .setAuthority,
      .step .getOutgoingBody, .acquire .outBody,
      .step .openBodyStream, .acquire .outBodyStream,
      .step .writeBody,
      .drop .outBodyStream,
      .step .finishBody, .consume .outBody,
      .acquire .requestOptions,
      .step .setConnectTimeout, .drop .requestOptions, .drop .request])
  else if env.setFirstByteTimeoutOk = false then
    (.failure "Failed to set first byte timeout",
     [.step .createHeaders, .acquire .headers,
      .step .constructRequest, .consume .headers, .acquire .request,
      .step .setMethod, .step .setPath, .step .setScheme, .step .setAuthority,
      .step .getOutgoingBody, .acquire .outBody,
      .step .openBodyStream, .acquire .outBodyStream,
      .step .writeBody,
      .drop .outBodyStream,
      .step .finishBody, .consume .outBody,
      .acquire .requestOptions,
      .step .setConnectTimeout, .step .setFirstByteTimeout,
      .drop .requestOptions, .drop .request])
  else if env.setBetweenBytesTimeoutOk = false then
    (.failure "Failed to set between-bytes timeout",
     [.step .createHeaders, .acquire .headers,
      .step .constructRequest, .consume .headers, .acquire .request,
      .step .setMethod, .step .setPath, .step .setScheme, .step .setAuthority,
      .step .getOutgoingBody, .acquire .outBody,
      .step .openBodyStream, .acquire .outBodyStream,
      .step .writeBody,
      .drop .outBodyStream,
      .step .finishBody, .consume .outBody,
      .acquire .requestOptions,
      .step .setConnectTimeout, .step .setFirstByteTimeout,
      .step .setBetweenBytesTimeout,
      .drop .requestOptions, .drop .request])
  else if env.handleOk = false then
    (.failure "Failed to send request",
     [.step .createHeaders, .acquire .headers,
      .step .constructRequest, .consume .headers, .acquire .request,
      .step .setMethod, .step .setPath, .step .setScheme, .step .setAuthority,
      .step .getOutgoingBody, .acquire .outBody,
      .step .openBodyStream, .acquire .outBodyStream,
      .step .writeBody,
      .drop .outBodyStream,
      .step .finishBody, .consume .outBody,
      .acquire .requestOptions,
      .step .setConnectTimeout, .step .setFirstByteTimeout,
      .step .setBetweenBytesTimeout,
      .step .dispatch, .consume .request, .consume .requestOptions])
  else
    match env.pollOutcome with
    | .errCode =>
        (.failure "Returned with error code",
         preAwaitEvents ++ (pollLoopEvents env.pollNotReady ++
           [.drop .futureResponse]))
    | .err =>
        (.failure "Returned with error",
         preAwaitEvents ++ (pollLoopEvents env.pollNotReady ++
           [.drop .futureResponse]))
    | .ok =>
        if env.consumeOk = false then
          (.failure "Failed to consume response",
           preAwaitEvents ++ (pollLoopEvents env.pollNotReady ++
             [.acquire .response, .step .readStatus, .step .readBody,
              .drop .response]))
        else if env.bodyStreamOk = false then
          (.failure "Failed to get body stream",
           preAwaitEvents ++ (pollLoopEvents env.pollNotReady ++
             [.acquire .response, .step .readStatus, .step .readBody,
              .acquire .incomingBody,
              .drop .incomingBody, .drop .response]))
        else
          (readBodyLoop [] env.chunks env.endTag,
           preAwaitEvents ++ (pollLoopEvents env.pollNotReady ++
             [.acquire .response, .step .readStatus, .step .readBody,
              .acquire .incomingBody, .acquire .incomingBodyStream,
              .drop .incomingBodyStream, .drop .incomingBody,
              .drop .response]))

/-- The request dispatch succeeded and the poll loop obtained a response
(`got_response` becomes true at c-example-http/main.c line 211). -/
def gotResponse (env : SendEnv) : Bool :=
  env.fromListOk && env.setMethodOk && env.setPathOk && env.setSchemeOk &&
  env.setAuthorityOk && env.requestBodyOk && env.bodyWriteOk &&
  env.blockingWriteOk && env.finishOk && env.setConnectTimeoutOk &&
  env.setFirstByteTimeoutOk && env.setBetweenBytesTimeoutOk &&
  env.handleOk && (env.pollOutcome == PollOutcome.ok)

/-- The error messages `send` can store in `ret`, in source order. -/
def sendErrorMessages : List String :=
  ["Failed to create header list", "Failed to set method",
   "Failed to set path", "Failed to set scheme", "Failed to set authority",
   "Failed to get outgoing body", "Failed to get outgoing body stream",
   "Failed to write body", "Failed to finish body",
   "Failed to set connect timeout", "Failed to set first byte timeout",
   "Failed to set between-bytes timeout", "Failed to send request",
   "Returned with error code", "Returned with error",
   "Failed to consume response", "Failed to get body stream",
   "Failed to read from body stream"]

/-- One step of the held-handle stack interpretation of a trace:
`acquire` pushes, `drop` must release the most recently acquired handle
still held (top of the stack), `consume` removes a handle the trace still
holds wherever it sits.  `none` means the discipline was violated. -/
def stackStep : Option (List Handle) → Event → Option (List Handle)
  | none, _ => none
  | some s, .acquire h => some (h :: s)
  | some s, .consume h => if h ∈ s then some (s.erase h) else none
  | some s, .drop h =>
      match s with
      | [] => none
      | top :: rest => if top = h then some rest else none
  | some s, .step _ => some s

/-- Interpret a whole trace, starting from no held handles; the result is
the list of handles still held at the end (`none` on a violation). -/
def stackRun (es : List Event) : Option (List Handle) :=
  es.foldl stackStep (some [])

/-- The steps of a trace, in order. -/
def stepsOf (es : List Event) : List Step :=
  es.filterMap (fun e =>
    match e with
    | .step s => some s
    | _ => none)

/-- The linear order of the workflow phases as the spec lists them. -/
def sendStepOrder : List Step :=
  [.createHeaders, .constructRequest, .setMethod, .setPath, .setScheme,
   .setAuthority, .getOutgoingBody, .openBodyStream, .writeBody,
   .finishBody, .setConnectTimeout, .setFirstByteTimeout,
   .setBetweenBytesTimeout, .dispatch, .awaitResponse, .readStatus,
   .readBody]

/-- An environment in which every host call succeeds, the response is
available at the first poll, and the body stream closes immediately. -/
def allOkEnv : SendEnv :=
  ⟨true, true, true, true, true, true, true, true, true, true, true, true,
   true, 0, .ok, 200, [], .closed, true, true⟩

/-- `allOkEnv` with a failing `fields_from_list` call. -/
def headerFailEnv : SendEnv :=
  ⟨false, true, true, true, true, true, true, true, true, true, true, true,
   true, 0, .ok, 200, [], .closed, true, true⟩

/-- `allOkEnv` with one body chunk and a fatal stream error ending the
read loop. -/
def readFailEnv : SendEnv :=
  ⟨true, true, true, true, true, true, true, true, true, true, true, true,
   true, 0, .ok, 200, [[1, 2]], .lastOperationFailed, true, true⟩

/-- A call to one of the three exports of the HTTP example component. -/
inductive ApiCall
  | add (value : Nat)
  | get
  | send (env : SendEnv)

/-- The value of the static `uint64_t total` after one exported call:
`add` executes `total += value`; `get` only reads `total` (line 23);
`send` only reads `total`, to format the request body (line 127). -/
def apiStep (total : Nat) : ApiCall → Nat
  | .add v => exports_pack_name_api_add total v
  | .get => total
  | .send _ => total

theorem runAdds_nil (t : Nat) : runAdds t [] = t := rfl

theorem runAdds_cons (t v : Nat) (vs : List Nat) :
    runAdds t (v :: vs) = runAdds ((t + v) % UINT64_MOD) vs := rfl

theorem runAdds_eq_mod (vs : List Nat) :
    ∀ t : Nat, t < UINT64_MOD → runAdds t vs = (t + vs.sum) % UINT64_MOD := by
  induction vs with
  | nil =>
      intro t ht
      simp [runAdds, Nat.mod_eq_of_lt ht]
  | cons v vs ih =>
      intro t ht
      rw [runAdds_cons, ih _ (Nat.mod_lt _ (by norm_num [UINT64_MOD]))]
      rw [Nat.mod_add_mod, List.sum_cons, ← Nat.add_assoc]

theorem runAdds_singleton_cons (t v : Nat) (vs : List Nat) :
    runAdds t (v :: vs) = (t + (v :: vs).sum) % UINT64_MOD := by
  rw [runAdds_cons,
      runAdds_eq_mod vs _ (Nat.mod_lt _ (by norm_num [UINT64_MOD])),
      Nat.mod_add_mod, List.sum_cons, Nat.add_assoc]

theorem strncpyReads_length (mem : Nat → Nat) :
    ∀ (n start : Nat), (strncpyReads mem start n).length ≤ n := by
  intro n
  induction n with
  | zero => intro start; simp [strncpyReads]
  | succ n ih =>
      intro start
      by_cases hz : mem start = 0
      · simp [strncpyReads, hz]
      · simp only [strncpyReads, if_neg hz, List.length_cons]
        exact Nat.succ_le_succ (ih (start + 1))

theorem strncpyReads_lt (mem : Nat → Nat) :
    ∀ (n start o : Nat), o ∈ strncpyReads mem start n → o < start + n := by
  intro n
  induction n with
  | zero => intro start o h; simp [strncpyReads] at h
  | succ n ih =>
      intro start o h
      by_cases hz : mem start = 0
      · simp [strncpyReads, hz] at h
        omega
      · simp only [strncpyReads, if_neg hz, List.mem_cons] at h
        rcases h with rfl | h2
        · omega
        · have := ih (start + 1) o h2
          omega

theorem pageReadsFrom_length : ∀ (n i : Nat), (pageReadsFrom i n).length = 2 * n := by
  intro n
  induction n with
  | zero => intro i; simp [pageReadsFrom]
  | succ n ih => intro i; simp [pageReadsFrom, ih]; omega

theorem pageReadsFrom_inBounds : ∀ (n i : Nat), readsInBounds (pageReadsFrom i n) = true := by
  intro n
  induction n with
  | zero => intro i; rfl
  | succ n ih =>
      intro i
      have := ih (i + 1)
      simp only [readsInBounds, pageReadsFrom, List.all_cons, Bool.and_eq_true] at *
      refine ⟨by norm_num [PAGE_SIZE], by norm_num [PAGE_SIZE], this⟩

theorem runLoop_allOk (env : AllocEnv) :
    ∀ (n i : Nat), (∀ j, j < n → env.alloc (i + j) = true) →
      runLoop env i n = some (pageReadsFrom i n) := by
  intro n
  induction n with
  | zero => intro i _; rfl
  | succ n ih =>
      intro i h
      have h0 : env.alloc i = true := by simpa using h 0 (Nat.succ_pos n)
      have hrest : ∀ j, j < n → env.alloc (i + 1 + j) = true := by
        intro j hj
        have := h (j + 1) (by omega)
        have heq : i + (j + 1) = i + 1 + j := by omega
        rwa [heq] at this
      simp [runLoop, h0, ih (i + 1) hrest, pageReadsFrom]

theorem foldl_stackStep_poll (n : Nat) (s : List Handle) :
    List.foldl stackStep (some s) (pollLoopEvents n) = some s := by
  induction n with
  | zero => rfl
  | succ n ih => simpa [pollLoopEvents, stackStep] using ih

theorem stepsOf_append (a b : List Event) :
    stepsOf (a ++ b) = stepsOf a ++ stepsOf b := by
  simp [stepsOf]

theorem stepsOf_poll (n : Nat) : stepsOf (pollLoopEvents n) = [] := by
  induction n with
  | zero => rfl
  | succ n ih => simpa [pollLoopEvents, stepsOf] using ih

theorem stackRun_late (n : Nat) (T : List Event) :
    stackRun (preAwaitEvents ++ (pollLoopEvents n ++ T)) =
      List.foldl stackStep (some [Handle.futureResponse]) T := by
  have hA : List.foldl stackStep (some []) preAwaitEvents =
      some [Handle.futureResponse] := by decide
  simp [stackRun, List.foldl_append, hA, foldl_stackStep_poll]

theorem stepsOf_late (n : Nat) (T : List Event) :
    stepsOf (preAwaitEvents ++ (pollLoopEvents n ++ T)) =
      stepsOf preAwaitEvents ++ stepsOf T := by
  rw [stepsOf_append, stepsOf_append, stepsOf_poll, List.nil_append]

theorem readBodyLoop_closed :
    ∀ (chunks : List (List Nat)) (acc : List Nat),
      readBodyLoop acc chunks .closed = .success (acc ++ chunks.flatten) := by
  intro chunks
  induction chunks with
  | nil => intro acc; simp [readBodyLoop]
  | cons c rest ih =>
      intro acc
      rw [readBodyLoop, ih (acc ++ c)]
      simp

theorem readBodyLoop_failed :
    ∀ (chunks : List (List Nat)) (acc : List Nat),
      readBodyLoop acc chunks .lastOperationFailed =
        .failure "Failed to read from body stream" := by
  intro chunks
  induction chunks with
  | nil => intro acc; rfl
  | cons c rest ih => intro acc; rw [readBodyLoop, ih (acc ++ c)]

/-- C1 (counterexample): `get()` after `add(2^63)` and `add(2^63)` on a
freshly loaded instance does not return the sum `2^63 + 2^63 = 2^64`: the
`uint64_t` counter wraps and `get()` returns 0. -/
theorem c1_get_sum_counterexample :
    exports_pack_name_api_get (runAdds 0 [2 ^ 63, 2 ^ 63]) ≠ 2 ^ 63 + 2 ^ 63 := by
  decide

/-- C1 (amended): for every freshly loaded instance (counter 0) and every
sequence of `add(v_i)` calls, a subsequent `get()` returns the sum of the
`v_i` reduced mod `2^64`; in particular with no `add` calls `get()`
returns 0. -/
theorem c1_get_after_adds :
    ∀ vs : List Nat,
      exports_pack_name_api_get (runAdds 0 vs) = vs.sum % UINT64_MOD ∧
      exports_pack_name_api_get (runAdds 0 []) = 0 := by
  intro vs
  refine ⟨?_, rfl⟩
  have := runAdds_eq_mod vs 0 (by norm_num [UINT64_MOD])
  simpa [exports_pack_name_api_get] using this

/-- C9: the counter value after a sequence of `add` calls is invariant
under permutation of the sequence: `total += value` is an addition mod
`2^64`, which is commutative and associative. -/
theorem c9_perm_invariant :
    ∀ (t : Nat) (l1 l2 : List Nat), l1.Perm l2 →
      exports_pack_name_api_get (runAdds t l1) =
        exports_pack_name_api_get (runAdds t l2) := by
  intro t l1 l2 hp
  simp only [exports_pack_name_api_get]
  cases l1 with
  | nil =>
      have : l2 = [] := hp.symm.eq_nil
      subst this
      rfl
  | cons v vs =>
      cases l2 with
      | nil => exact absurd hp.eq_nil (by simp)
      | cons w ws =>
          rw [runAdds_singleton_cons, runAdds_singleton_cons, hp.sum_eq]

/-- C9 (witness): `add(1); add(2)` and `add(2); add(1)` from counter 5
leave the same counter value. -/
theorem c9_perm_invariant_witness :
    exports_pack_name_api_get (runAdds 5 [1, 2]) =
      exports_pack_name_api_get (runAdds 5 [2, 1]) :=
  c9_perm_invariant 5 [1, 2] [2, 1] (List.Perm.swap 2 1 [])

/-- C10: the counter arithmetic is exact mod `2^64`: for every in-range
prior value `t` and argument `v`, after `add(v)` the counter is
`(t + v) mod 2^64`, and `get()` after any sequence of `add` calls from `t`
returns `(t + sum) mod 2^64` — silent wraparound, no saturation and no
failure. -/
theorem c10_mod_arithmetic :
    ∀ (t v : Nat), t < UINT64_MOD →
      exports_pack_name_api_add t v = (t + v) % UINT64_MOD ∧
      (∀ vs : List Nat,
        exports_pack_name_api_get (runAdds t vs) = (t + vs.sum) % UINT64_MOD) := by
  intro t v ht
  refine ⟨rfl, ?_⟩
  intro vs
  simpa [exports_pack_name_api_get] using runAdds_eq_mod vs t ht

/-- C10 (witness): from the largest counter value, `add(1)` wraps to 0. -/
theorem c10_mod_arithmetic_witness :
    (2 ^ 64 - 1 : Nat) < UINT64_MOD ∧
    exports_pack_name_api_add (2 ^ 64 - 1) 1 = (2 ^ 64 - 1 + 1) % UINT64_MOD :=
  ⟨by norm_num [UINT64_MOD],
   (c10_mod_arithmetic (2 ^ 64 - 1) 1 (by norm_num [UINT64_MOD])).1⟩

theorem foldl_apiStep_no_add :
    ∀ (cs : List ApiCall) (t : Nat), (∀ c ∈ cs, ∀ v, c ≠ ApiCall.add v) →
      cs.foldl apiStep t = t := by
  intro cs
  induction cs with
  | nil => intro t _; rfl
  | cons c rest ih =>
      intro t h
      have hc := h c (List.mem_cons_self c rest)
      have hrest : ∀ c ∈ rest, ∀ v, c ≠ ApiCall.add v :=
        fun c hm => h c (List.mem_cons_of_mem _ hm)
      cases c with
      | add v => exact absurd rfl (hc v)
      | get => exact ih t hrest
      | send env => exact ih t hrest

/-- C8: every exported operation other than `add` leaves the process-wide
counter unchanged: a sequence of `get` and `send` calls ends with the same
`total` it started with, `send` in particular preserves `total`, and two
consecutive `get` calls return the same value. -/
theorem c8_non_add_frame :
    ∀ (t : Nat) (cs : List ApiCall), (∀ c ∈ cs, ∀ v, c ≠ ApiCall.add v) →
      cs.foldl apiStep t = t ∧
      (∀ env : SendEnv, apiStep t (ApiCall.send env) = t) ∧
      exports_pack_name_api_get (apiStep t ApiCall.get) =
        exports_pack_name_api_get t := by
  intro t cs h
  exact ⟨foldl_apiStep_no_add cs t h, fun _ => rfl, rfl⟩

/-- C8 (witness): from counter 7, a `get` followed by a `send` leaves the
counter at 7. -/
theorem c8_non_add_frame_witness :
    List.foldl apiStep 7 [ApiCall.get, ApiCall.send allOkEnv] = 7 :=
  (c8_non_add_frame 7 [ApiCall.get, ApiCall.send allOkEnv]
    (by intro c hc v
        rcases List.mem_cons.mp hc with rfl | hc2
        · exact fun h => ApiCall.noConfusion h
        rcases List.mem_cons.mp hc2 with rfl | hc3
        · exact fun h => ApiCall.noConfusion h
        · cases hc3)).1

/-- C7: for every input string, `print` reads at most `s->len` bytes from
`s->ptr` and every offset it reads is below `s->len`, whether or not the
first `s->len` bytes contain a NUL terminator. -/
theorem c7_print_reads_within_len :
    ∀ s : c_api1_string_t,
      (exports_c_api1_print s).length ≤ s.len ∧
      allBelow (exports_c_api1_print s) s.len = true := by
  intro s
  refine ⟨strncpyReads_length s.mem s.len 0, ?_⟩
  rw [allBelow, List.all_eq_true]
  intro o ho
  have := strncpyReads_lt s.mem s.len 0 o ho
  simpa using this

/-- C6 (counterexample): when the first `malloc(PAGE_SIZE)` fails (returns
NULL), the unchecked `DATA[0]` dereferences a null pointer and the run
crashes instead of completing and returning 0. -/
theorem c6_alloc_crash_counterexample :
    exports_c_api1_run ⟨fun _ => false⟩ = none := by
  decide

/-- C6 (amended): provided every `malloc` of the loop succeeds, `run`
performs exactly 512 sequential iterations — 1024 byte reads, the first
and last byte of each of the 512 pages in order, all within the bounds of
their 1MB block — and returns 0 without crashing. -/
theorem c6_run_when_allocs_succeed :
    ∀ env : AllocEnv, allocAllOk env = true →
      exports_c_api1_run env = some (0, pageReadsFrom 0 COUNT) ∧
      readsInBounds (pageReadsFrom 0 COUNT) = true ∧
      (pageReadsFrom 0 COUNT).length = 2 * COUNT := by
  intro env h
  have hall : ∀ j, j < COUNT → env.alloc j = true := by
    intro j hj
    exact List.all_eq_true.mp h j (List.mem_range.mpr hj)
  have hrun := runLoop_allOk env COUNT 0 (fun j hj => by simpa using hall j hj)
  refine ⟨?_, pageReadsFrom_inBounds COUNT 0, pageReadsFrom_length COUNT 0⟩
  simp [exports_c_api1_run, hrun]

/-- C6 (witness): with an always-succeeding allocator the run returns 0
with the full read trace. -/
theorem c6_run_when_allocs_succeed_witness :
    allocAllOk ⟨fun _ => true⟩ = true ∧
    exports_c_api1_run ⟨fun _ => true⟩ = some (0, pageReadsFrom 0 COUNT) :=
  ⟨by simp [allocAllOk],
   (c6_run_when_allocs_succeed ⟨fun _ => true⟩ (by simp [allocAllOk])).1⟩

/-- C2 (counterexample): on the all-success path `send` acquires the
future-incoming-response own handle but never drops it, although the call
returns successfully — so not every own handle is dropped exactly once on
every code path. -/
theorem c2_future_leak_counterexample :
    Event.acquire Handle.futureResponse ∈
      (exports_pack_name_api_send 0 allOkEnv).2 ∧
    Event.drop Handle.futureResponse ∉
      (exports_pack_name_api_send 0 allOkEnv).2 ∧
    (exports_pack_name_api_send 0 allOkEnv).1 = SendResult.success [] := by
  decide

/-- C2 (amended): on every exit path of `send`, each drop releases the most
recently acquired own handle still held (reverse-acquisition order) and
every own handle is dropped exactly once unless a host call consumed it —
except the future-incoming-response handle, which is dropped only on the
two poll-loop error exits and is leaked exactly when a response was
received (on the success path and on the post-response failure paths); and
every failure exit stores one of the fixed error messages in `ret`. -/
theorem c2_resource_discipline :
    ∀ (total : Nat) (env : SendEnv),
      stackRun (exports_pack_name_api_send total env).2 =
        some (if gotResponse env = true then [Handle.futureResponse] else []) ∧
      (∀ m, (exports_pack_name_api_send total env).1 = SendResult.failure m →
        m ∈ sendErrorMessages) := by
  intro total env
  obtain ⟨f1, f2, f3, f4, f5, f6, f7, f8, f9, f10, f11, f12, f13, n, po, st,
    ch, tag, cok, bok⟩ := env
  cases f1
  · exact ⟨rfl, fun m hm => by injection hm with h; subst h; decide⟩
  cases f2
  · exact ⟨rfl, fun m hm => by injection hm with h; subst h; decide⟩
  cases f3
  · exact ⟨rfl, fun m hm => by injection hm with h; subst h; decide⟩
  cases f4
  · exact ⟨rfl, fun m hm => by injection hm with h; subst h; decide⟩
  cases f5
  · exact ⟨rfl, fun m hm => by injection hm with h; subst h; decide⟩
  cases f6
  · exact ⟨rfl, fun m hm => by injection hm with h; subst h; decide⟩
  cases f7
  · exact ⟨rfl, fun m hm => by injection hm with h; subst h; decide⟩
  cases f8
  · exact ⟨rfl, fun m hm => by injection hm with h; subst h; decide⟩
  cases f9
  · exact ⟨rfl, fun m hm => by injection hm with h; subst h; decide⟩
  cases f10
  · exact ⟨rfl, fun m hm => by injection hm with h; subst h; decide⟩
  cases f11
  · exact ⟨rfl, fun m hm => by injection hm with h; subst h; decide⟩
  cases f12
  · exact ⟨rfl, fun m hm => by injection hm with h; subst h; decide⟩
  cases f13
  · exact ⟨rfl, fun m hm => by injection hm with h; subst h; decide⟩
  cases po
  case errCode =>
    refine ⟨?_, fun m hm => by injection hm with h; subst h; decide⟩
    show stackRun (preAwaitEvents ++ (pollLoopEvents n ++
      [Event.drop Handle.futureResponse])) = some []
    rw [stackRun_late]
    decide
  case err =>
    refine ⟨?_, fun m hm => by injection hm with h; subst h; decide⟩
    show stackRun (preAwaitEvents ++ (pollLoopEvents n ++
      [Event.drop Handle.futureResponse])) = some []
    rw [stackRun_late]
    decide
  case ok =>
    cases cok
    · refine ⟨?_, fun m hm => by injection hm with h; subst h; decide⟩
      show stackRun (preAwaitEvents ++ (pollLoopEvents n ++
        [Event.acquire Handle.response, Event.step Step.readStatus,
         Event.step Step.readBody, Event.drop Handle.response])) =
        some [Handle.futureResponse]
      rw [stackRun_late]
      decide
    cases bok
    · refine ⟨?_, fun m hm => by injection hm with h; subst h; decide⟩
      show stackRun (preAwaitEvents ++ (pollLoopEvents n ++
        [Event.acquire Handle.response, Event.step Step.readStatus,
         Event.step Step.readBody, Event.acquire Handle.incomingBody,
         Event.drop Handle.incomingBody, Event.drop Handle.response])) =
        some [Handle.futureResponse]
      rw [stackRun_late]
      decide
    refine ⟨?_, ?_⟩
    · show stackRun (preAwaitEvents ++ (pollLoopEvents n ++
        [Event.acquire Handle.response, Event.step Step.readStatus,
         Event.step Step.readBody, Event.acquire Handle.incomingBody,
         Event.acquire Handle.incomingBodyStream,
         Event.drop Handle.incomingBodyStream,
         Event.drop Handle.incomingBody, Event.drop Handle.response])) =
        some [Handle.futureResponse]
      rw [stackRun_late]
      decide
    · intro m hm
      have hm2 : readBodyLoop ([] : List Nat) ch tag = SendResult.failure m := hm
      cases tag
      · rw [readBodyLoop_failed] at hm2
        injection hm2 with h
        subst h
        decide
      · rw [readBodyLoop_closed] at hm2
        exact SendResult.noConfusion hm2

/-- C2 (witness): a failing header-list creation exits with all handles
released and one of the fixed error messages. -/
theorem c2_resource_discipline_witness :
    stackRun (exports_pack_name_api_send 0 headerFailEnv).2 = some [] ∧
    "Failed to create header list" ∈ sendErrorMessages :=
  ⟨(c2_resource_discipline 0 headerFailEnv).1,
   (c2_resource_discipline 0 headerFailEnv).2 "Failed to create header list" rfl⟩

/-- C3: in the response-body read loop, the stream error tag `closed` is
treated as success/EOF — the loop ends and the accumulated body is the
result — while the only other tag, `last-operation-failed`, is fatal: the
loop aborts and an error string is returned; at the `send` level, once a
response is consumed and its stream obtained, the result is exactly the
read loop's outcome. -/
theorem c3_stream_closed_eof :
    ∀ (total : Nat) (env : SendEnv) (acc : List Nat)
      (chunks : List (List Nat)),
      readBodyLoop acc chunks StreamErrorTag.closed =
        SendResult.success (acc ++ chunks.flatten) ∧
      readBodyLoop acc chunks StreamErrorTag.lastOperationFailed =
        SendResult.failure "Failed to read from body stream" ∧
      (gotResponse env = true → env.consumeOk = true →
        env.bodyStreamOk = true →
        (exports_pack_name_api_send total env).1 =
          readBodyLoop [] env.chunks env.endTag) := by
  intro total env acc chunks
  refine ⟨readBodyLoop_closed chunks acc, readBodyLoop_failed chunks acc, ?_⟩
  intro hg hcok hbok
  simp only [gotResponse, Bool.and_eq_true, beq_iff_eq] at hg
  obtain ⟨⟨⟨⟨⟨⟨⟨⟨⟨⟨⟨⟨⟨h1, h2⟩, h3⟩, h4⟩, h5⟩, h6⟩, h7⟩, h8⟩, h9⟩, h10⟩,
    h11⟩, h12⟩, h13⟩, hpo⟩ := hg
  simp [exports_pack_name_api_send, h1, h2, h3, h4, h5, h6, h7, h8, h9,
    h10, h11, h12, h13, hpo, hcok, hbok]

/-- C3 (witness): with one chunk read and a fatal stream error, the loop
and `send` both return the read-failure message. -/
theorem c3_stream_closed_eof_witness :
    readBodyLoop [] [[1, 2]] StreamErrorTag.lastOperationFailed =
      SendResult.failure "Failed to read from body stream" ∧
    (exports_pack_name_api_send 0 readFailEnv).1 =
      readBodyLoop [] [[1, 2]] StreamErrorTag.lastOperationFailed :=
  ⟨(c3_stream_closed_eof 0 readFailEnv [] [[1, 2]]).2.1,
   (c3_stream_closed_eof 0 readFailEnv [] [[1, 2]]).2.2 (by decide) rfl rfl⟩

/-- C4: `send` stores exactly one of two things in `ret`: one of the fixed
error messages on failure, or on success the concatenation, in read order,
of all chunks read from the incoming body stream before it reported
`closed`; there is no third outcome. -/
theorem c4_send_two_outcomes :
    ∀ (total : Nat) (env : SendEnv),
      (∃ m, (exports_pack_name_api_send total env).1 = SendResult.failure m ∧
        m ∈ sendErrorMessages) ∨
      ((exports_pack_name_api_send total env).1 =
          SendResult.success env.chunks.flatten ∧
        env.endTag = StreamErrorTag.closed) := by
  intro total env
  obtain ⟨f1, f2, f3, f4, f5, f6, f7, f8, f9, f10, f11, f12, f13, n, po, st,
    ch, tag, cok, bok⟩ := env
  cases f1
  · exact Or.inl ⟨_, rfl, by decide⟩
  cases f2
  · exact Or.inl ⟨_, rfl, by decide⟩
  cases f3
  · exact Or.inl ⟨_, rfl, by decide⟩
  cases f4
  · exact Or.inl ⟨_, rfl, by decide⟩
  cases f5
  · exact Or.inl ⟨_, rfl, by decide⟩
  cases f6
  · exact Or.inl ⟨_, rfl, by decide⟩
  cases f7
  · exact Or.inl ⟨_, rfl, by decide⟩
  cases f8
  · exact Or.inl ⟨_, rfl, by decide⟩
  cases f9
  · exact Or.inl ⟨_, rfl, by decide⟩
  cases f10
  · exact Or.inl ⟨_, rfl, by decide⟩
  cases f11
  · exact Or.inl ⟨_, rfl, by decide⟩
  cases f12
  · exact Or.inl ⟨_, rfl, by decide⟩
  cases f13
  · exact Or.inl ⟨_, rfl, by decide⟩
  cases po
  case errCode => exact Or.inl ⟨_, rfl, by decide⟩
  case err => exact Or.inl ⟨_, rfl, by decide⟩
  case ok =>
    cases cok
    · exact Or.inl ⟨_, rfl, by decide⟩
    cases bok
    · exact Or.inl ⟨_, rfl, by decide⟩
    cases tag
    · exact Or.inl ⟨_, readBodyLoop_failed ch [], by decide⟩
    · exact Or.inr ⟨readBodyLoop_closed ch [], rfl⟩

/-- C5: the workflow phases of `send` are attempted in the strict linear
order construct-request, set method/path/scheme/authority, open the body
stream, write the body, finish the body, set the three timeouts, dispatch,
await the response, read the status, stream the response body: every trace
is a prefix of that order (a later phase is attempted only after all
earlier ones succeeded), and a successful call performs all of them. -/
theorem c5_linear_order :
    ∀ (total : Nat) (env : SendEnv),
      (∃ k, k ≤ sendStepOrder.length ∧
        stepsOf (exports_pack_name_api_send total env).2 =
          sendStepOrder.take k) ∧
      (∀ b, (exports_pack_name_api_send total env).1 = SendResult.success b →
        stepsOf (exports_pack_name_api_send total env).2 = sendStepOrder) := by
  intro total env
  obtain ⟨f1, f2, f3, f4, f5, f6, f7, f8, f9, f10, f11, f12, f13, n, po, st,
    ch, tag, cok, bok⟩ := env
  cases f1
  · exact ⟨⟨1, by decide, rfl⟩, fun b hb => SendResult.noConfusion hb⟩
  cases f2
  · exact ⟨⟨3, by decide, rfl⟩, fun b hb => SendResult.noConfusion hb⟩
  cases f3
  · exact ⟨⟨4, by decide, rfl⟩, fun b hb => SendResult.noConfusion hb⟩
  cases f4
  · exact ⟨⟨5, by decide, rfl⟩, fun b hb => SendResult.noConfusion hb⟩
  cases f5
  · exact ⟨⟨6, by decide, rfl⟩, fun b hb => SendResult.noConfusion hb⟩
  cases f6
  · exact ⟨⟨7, by decide, rfl⟩, fun b hb => SendResult.noConfusion hb⟩
  cases f7
  · exact ⟨⟨8, by decide, rfl⟩, fun b hb => SendResult.noConfusion hb⟩
  cases f8
  · exact ⟨⟨9, by decide, rfl⟩, fun b hb => SendResult.noConfusion hb⟩
  cases f9
  · exact ⟨⟨10, by decide, rfl⟩, fun b hb => SendResult.noConfusion hb⟩
  cases f10
  · exact ⟨⟨11, by decide, rfl⟩, fun b hb => SendResult.noConfusion hb⟩
  cases f11
  · exact ⟨⟨12, by decide, rfl⟩, fun b hb => SendResult.noConfusion hb⟩
  cases f12
  · exact ⟨⟨13, by decide, rfl⟩, fun b hb => SendResult.noConfusion hb⟩
  cases f13
  · exact ⟨⟨14, by decide, rfl⟩, fun b hb => SendResult.noConfusion hb⟩
  cases po
  case errCode =>
    refine ⟨⟨15, by decide, ?_⟩, fun b hb => SendResult.noConfusion hb⟩
    show stepsOf (preAwaitEvents ++ (pollLoopEvents n ++
      [Event.drop Handle.futureResponse])) = sendStepOrder.take 15
    rw [stepsOf_late]
    decide
  case err =>
    refine ⟨⟨15, by decide, ?_⟩, fun b hb => SendResult.noConfusion hb⟩
    show stepsOf (preAwaitEvents ++ (pollLoopEvents n ++
      [Event.drop Handle.futureResponse])) = sendStepOrder.take 15
    rw [stepsOf_late]
    decide
  case ok =>
    cases cok
    · refine ⟨⟨17, by decide, ?_⟩, fun b hb => SendResult.noConfusion hb⟩
      show stepsOf (preAwaitEvents ++ (pollLoopEvents n ++
        [Event.acquire Handle.response, Event.step Step.readStatus,
         Event.step Step.readBody, Event.drop Handle.response])) =
        sendStepOrder.take 17
      rw [stepsOf_late]
      decide
    cases bok
    · refine ⟨⟨17, by decide, ?_⟩, fun b hb => SendResult.noConfusion hb⟩
      show stepsOf (preAwaitEvents ++ (pollLoopEvents n ++
        [Event.acquire Handle.response, Event.step Step.readStatus,
         Event.step Step.readBody, Event.acquire Handle.incomingBody,
         Event.drop Handle.incomingBody, Event.drop Handle.response])) =
        sendStepOrder.take 17
      rw [stepsOf_late]
      decide
    have hsteps : stepsOf (preAwaitEvents ++ (pollLoopEvents n ++
        [Event.acquire Handle.response, Event.step Step.readStatus,
         Event.step Step.readBody, Event.acquire Handle.incomingBody,
         Event.acquire Handle.incomingBodyStream,
         Event.drop Handle.incomingBodyStream,
         Event.drop Handle.incomingBody, Event.drop Handle.response])) =
        sendStepOrder := by
      rw [stepsOf_late]
      decide
    exact ⟨⟨17, by decide, by rw [List.take_of_length_le (by decide)]; exact hsteps⟩,
      fun b _ => hsteps⟩

/-- C5 (witness): the all-success call performs every phase in order. -/
theorem c5_linear_order_witness :
    stepsOf (exports_pack_name_api_send 0 allOkEnv).2 = sendStepOrder :=
  (c5_linear_order 0 allOkEnv).2 [] rfl
